import Mathlib

/-!
# Verification of the NFD Agents chat client core

Shallow embedding, in Lean 4, of the WebSocket session manager subsystem of
the `wp-module-ai-chat` repository:

* `src/src/utils/nfdAgents/greeting.js` (`isInitialGreeting`)
* `src/src/utils/nfdAgents/messageHandler.js` (`filterMessage`, `createMessageHandler`)
* `src/src/utils/nfdAgents/storageUtils.js` (`hasMeaningfulUserMessage`,
  `restoreChat`, `persistMessages`)
* `src/src/constants/nfdAgents/storageKeys.js` (`migrateStorageKeys`)
* `src/src/utils/nfdAgents/archiveConversation.js` (`archiveConversation`)
* `src/src/hooks/useNfdAgentsWebSocket.js` (reconnect policy in `ws.onclose`,
  `sendMessage`, `stopRequest`)
* `src/src/constants/nfdAgents/websocket.js` (`NFD_AGENTS_WEBSOCKET` constants)

JavaScript strings are modelled as Lean `String` (with `""` standing both
for the empty string and for an absent/undefined string field, which the
source only ever distinguishes through truthiness, where they coincide).
JS string length is UTF-16 units and Lean length is code points; the two
agree on the ASCII data handled here.  JS string methods are re-implemented
on the underlying character list so that they compute by structural
recursion (`trim`, `toLowerCase`, `substring`, ...).  React state setters
are modelled as synchronous updates on an explicit state record, which is
the reading the source itself works to ensure (it mirrors streamed text
into closure variables precisely so that reads are synchronous).
-/

namespace AIChat

/-! ## JS string primitives -/

/-- JS `a || b` on strings: the empty string is falsy. -/
def jsOr (a b : String) : String :=
  if a = "" then b else a

/-- JS `o || null` on a nullable string: `""` collapses to null. -/
def jsOrNullStr : Option String → Option String
  | some se => if se = "" then none else some se
  | none => none

/-- JS `\s` character class (the members that can occur in chat text). -/
def jsSpace (c : Char) : Bool :=
  c = ' ' || c = '\t' || c = '\n' || c = '\r' || c = '\x0b' || c = '\x0c' || c = ' '

/-- JS `s.trim()`: strip leading and trailing whitespace. -/
def jsTrim (s : String) : String :=
  ⟨((s.data.dropWhile jsSpace).reverse.dropWhile jsSpace).reverse⟩

/-- JS `s.toLowerCase()` (ASCII; agrees with JS on the data handled here). -/
def strToLower (s : String) : String :=
  ⟨s.data.map Char.toLower⟩

/-- JS `s.toUpperCase()` (ASCII). -/
def strToUpper (s : String) : String :=
  ⟨s.data.map Char.toUpper⟩

/-- JS `s.length` (UTF-16 units; code points here, equal on ASCII data). -/
def strLength (s : String) : Nat :=
  s.data.length

/-- JS `s.substring(n)`. -/
def strDrop (s : String) (n : Nat) : String :=
  ⟨s.data.drop n⟩

/-- JS `s.startsWith(p)`. -/
def strStartsWith (s p : String) : Bool :=
  p.data.isPrefixOf s.data

/-- JS `s.endsWith(p)`. -/
def strEndsWith (s p : String) : Bool :=
  p.data.isSuffixOf s.data

/-- Contiguous-substring test on character lists. -/
def containsSub (needle : List Char) : List Char → Bool
  | [] => needle.isEmpty
  | c :: t => needle.isPrefixOf (c :: t) || containsSub needle t

/-- JS `hay.includes(needle)`. -/
def strContains (hay needle : String) : Bool :=
  containsSub needle.data hay.data

/-- JS `s.replace(re, d)` for the global single-character pattern `/\//g`. -/
def slashesToDashes (s : String) : String :=
  ⟨s.data.map fun c => if c = '/' then '-' else c⟩

theorem jsOr_empty_right (a : String) : jsOr a "" = a := by
  unfold jsOr; split <;> simp_all

theorem jsOr_empty_left (b : String) : jsOr "" b = b := by
  unfold jsOr; simp

/-! ## Greeting detection (`src/src/utils/nfdAgents/greeting.js`)

The source tests a lowercased, trimmed copy of the content against a list
of anchored regular expressions and keyword heuristics.  The regexes use
only literals, `!?`, `\s+` and `.*`; we embed them as token lists with a
small matcher.  All patterns are anchored at the start (`^`) and not at the
end, so a match is a prefix match.  Each `\s+` in the patterns is followed
by a letter, so greedy whitespace consumption is complete; `!?` tries both
alternatives.  JS `.` does not match a newline. -/

/-- One token of the (restricted) regexes used by `isInitialGreeting`. -/
inductive ReTok where
  | lit (s : String)
  | bang
  | ws
  | anystar
deriving DecidableEq

/-- Match a token-list regex as a prefix of the character list. -/
def matchToks : List ReTok → List Char → Bool
  | [], _ => true
  | ReTok.lit se :: ps, cs =>
    se.data.isPrefixOf cs && matchToks ps (cs.drop se.data.length)
  | ReTok.bang :: ps, [] => matchToks ps []
  | ReTok.bang :: ps, c :: cs =>
    if c = '!' then matchToks ps cs || matchToks ps (c :: cs)
    else matchToks ps (c :: cs)
  | ReTok.ws :: ps, cs =>
    let k := (cs.takeWhile jsSpace).length
    decide (0 < k) && matchToks ps (cs.drop k)
  | ReTok.anystar :: ps, cs =>
    (List.range (cs.length + 1)).any fun i =>
      (cs.take i).all (fun c => c ≠ '\n') && matchToks ps (cs.drop i)

/-- Run an embedded greeting regex against a string (JS `re.test(s)`). -/
def reTest (ps : List ReTok) (s : String) : Bool :=
  matchToks ps s.data

/-- The `greetingPatterns` array from `greeting.js`, in source order. -/
def greetingPatterns : List (List ReTok) :=
  [ [ReTok.lit "hello", ReTok.bang, ReTok.ws, ReTok.lit "how", ReTok.ws, ReTok.lit "can",
     ReTok.ws, ReTok.lit "i", ReTok.ws, ReTok.lit "assist", ReTok.ws, ReTok.lit "you"],
    [ReTok.lit "hi", ReTok.bang, ReTok.ws, ReTok.lit "how", ReTok.ws, ReTok.lit "can",
     ReTok.ws, ReTok.lit "i", ReTok.ws, ReTok.lit "help"],
    [ReTok.lit "hello", ReTok.bang, ReTok.ws, ReTok.lit "how", ReTok.ws, ReTok.lit "can",
     ReTok.ws, ReTok.lit "i", ReTok.ws, ReTok.lit "help"],
    [ReTok.lit "hi", ReTok.ws, ReTok.lit "there", ReTok.bang, ReTok.ws, ReTok.lit "how",
     ReTok.ws, ReTok.lit "can"],
    [ReTok.lit "greetings", ReTok.bang, ReTok.ws, ReTok.lit "how", ReTok.ws, ReTok.lit "can"],
    [ReTok.lit "how", ReTok.ws, ReTok.lit "can", ReTok.ws, ReTok.lit "i", ReTok.ws,
     ReTok.lit "assist", ReTok.ws, ReTok.lit "you", ReTok.ws, ReTok.lit "today"],
    [ReTok.lit "how", ReTok.ws, ReTok.lit "can", ReTok.ws, ReTok.lit "i", ReTok.ws,
     ReTok.lit "help", ReTok.ws, ReTok.lit "you", ReTok.ws, ReTok.lit "today"],
    [ReTok.lit "hello", ReTok.bang, ReTok.ws, ReTok.lit "how", ReTok.ws, ReTok.lit "can",
     ReTok.ws, ReTok.lit "i", ReTok.ws, ReTok.lit "assist", ReTok.ws, ReTok.lit "you",
     ReTok.ws, ReTok.lit "today"],
    [ReTok.lit "hello", ReTok.bang, ReTok.ws, ReTok.lit "how", ReTok.ws, ReTok.lit "can",
     ReTok.ws, ReTok.lit "i", ReTok.ws, ReTok.lit "assist", ReTok.ws, ReTok.lit "you",
     ReTok.anystar, ReTok.lit "feel", ReTok.ws, ReTok.lit "free"] ]

/-- `isInitialGreeting` from `greeting.js`.  The guard for a non-string or
empty argument is `content = ""` here, since absent strings are modelled
as `""`. -/
def isInitialGreeting (content : String) : Bool :=
  if content = "" then false
  else
    let normalized := jsTrim (strToLower content)
    let isGreeting := greetingPatterns.any fun pattern => reTest pattern normalized
    let hasGreetingKeywords :=
      strContains normalized "hello" &&
      (strContains normalized "assist" || strContains normalized "help") &&
      (strContains normalized "today" || strContains normalized "feel free" ||
        strContains normalized "ask")
    let isShortGreeting :=
      decide (strLength normalized < 150) &&
      ((strContains normalized "hello" &&
          (strContains normalized "assist" || strContains normalized "help")) ||
        (strContains normalized "hi" && strContains normalized "help"))
    isGreeting || hasGreetingKeywords || isShortGreeting

/-! ## `filterMessage` (`messageHandler.js`, lines 19-33) -/

/-- Extract-and-filter a message string: `none` means suppressed. -/
def filterMessage (raw : String) (hasUserMessage : Bool) : Option String :=
  let trimmed := jsTrim raw
  if trimmed = "" || trimmed = "No content provided" || trimmed = "sales_requested" ||
      strToLower trimmed = "sales_requested" then
    none
  else if !hasUserMessage && decide (strLength trimmed < 150) && isInitialGreeting trimmed then
    none
  else
    some trimmed

/-! ## Protocol constants (`src/src/constants/nfdAgents/websocket.js`,
`src/src/constants/nfdAgents/typingStatus.js`) -/

/-- `NFD_AGENTS_WEBSOCKET.MAX_RECONNECT_ATTEMPTS`. -/
def MAX_RECONNECT_ATTEMPTS : Nat := 5

/-- `NFD_AGENTS_WEBSOCKET.RECONNECT_DELAY` in milliseconds. -/
def RECONNECT_DELAY : Nat := 1000

/-- `getStatusForEventType` from `typingStatus.js` (the map, with `?? null`). -/
def getStatusForEventType (eventType : String) : Option String :=
  if eventType = "typing_start" then some "processing"
  else if eventType = "handoff_request" then some "connecting"
  else if eventType = "handoff_accept" then some "connecting"
  else if eventType = "tool_call" then some "tool_call"
  else if eventType = "tool_result" then some "working"
  else none

/-! ## JS values and tool-call descriptors

Tool-call payloads carry arbitrary JSON values.  `JsVal` models a decoded
JS value; `JSON.parse` on embedded argument strings is an external browser
primitive, modelled as an explicit function parameter
`jsonParse : String → Option JsVal` (`none` = the parse throws). -/

/-- A decoded JS/JSON value. -/
inductive JsVal where
  | vnull
  | vbool (b : Bool)
  | vnum (n : Int)
  | vstr (s : String)
  | varr (elems : List JsVal)
  | vobj (fields : List (String × JsVal))

/-- JS truthiness of a value (`NaN` not modelled). -/
def jsTruthy : JsVal → Bool
  | .vnull => false
  | .vbool b => b
  | .vnum n => decide (n ≠ 0)
  | .vstr s => decide (s ≠ "")
  | .varr _ => true
  | .vobj _ => true

/-- Is the value a (non-array) JS object literal. -/
def JsVal.isObj : JsVal → Bool
  | .vobj _ => true
  | _ => false

/-- JS property read `v[key]`: throws a TypeError on `null`/`undefined`
(`Except.error`), yields `undefined` (`none`) on primitives and arrays. -/
def jsGetProp : JsVal → String → Except Unit (Option JsVal)
  | .vnull, _ => .error ()
  | .vobj fields, key => .ok ((fields.find? fun f => f.fst == key).map Prod.snd)
  | _, _ => .ok none

/-- One element of a `tool_call` frame `function_content` array.  String
fields use `""` for absent; `arguments` is the raw JS value (a `.vstr` is
the case where the gateway sent a string, which the source runs through
`JSON.parse`). -/
structure ToolDesc where
  id : String := ""
  name : String := ""
  function_name : String := ""
  arguments : Option JsVal := none

/-- A normalized tool call as handed to the consumer callback. -/
structure NormTool where
  id : String
  name : String
  arguments : JsVal

/-- The meta-tool marker unwrapped by the normalizer. -/
def wrapperSuffix : String := "-call_wordpress_tool"

/-- Normalization of one tool-call descriptor, before the `catch`
(`messageHandler.js` lines 256-280).  `Except.error` marks the points where
the JS would throw: `JSON.parse` failure on the arguments string, property
access on a parsed `null`, and `.replace` called on a truthy non-string
`tool_name`.  The source computes `rawArgs` as `JSON.parse(tc.arguments)`
when the arguments are a string. -/
def normalizeCore (jsonParse : String → Option JsVal) (genId : String) (tc : ToolDesc) :
    Except Unit NormTool :=
  let id := jsOr tc.id genId
  let rawName := jsOr tc.name tc.function_name
  let rawArgsE : Except Unit JsVal :=
    match tc.arguments with
    | some (.vstr sArgs) =>
      match jsonParse sArgs with
      | some v => .ok v
      | none => .error ()
    | some v => .ok (if jsTruthy v then v else JsVal.vobj [])
    | none => .ok (JsVal.vobj [])
  match rawArgsE with
  | .error e => .error e
  | .ok rawArgs =>
    if strEndsWith rawName wrapperSuffix then
      match jsGetProp rawArgs "tool_name" with
      | .error e => .error e
      | .ok toolNameProp =>
        match toolNameProp with
        | some (.vstr toolNameStr) =>
          if toolNameStr = "" then
            .ok { id := id, name := rawName, arguments := rawArgs }
          else
            match jsGetProp rawArgs "tool_arguments" with
            | .error e => .error e
            | .ok taProp =>
              let innerArgs0 :=
                match taProp with
                | some v => if jsTruthy v then v else JsVal.vobj []
                | none => JsVal.vobj []
              let innerArgs :=
                match innerArgs0 with
                | .vstr sInner =>
                  match jsonParse sInner with
                  | some v => v
                  | none => JsVal.vstr sInner
                | v => v
              .ok { id := id, name := slashesToDashes toolNameStr,
                    arguments := innerArgs }
        | some v =>
          if jsTruthy v then .error ()
          else .ok { id := id, name := rawName, arguments := rawArgs }
        | none => .ok { id := id, name := rawName, arguments := rawArgs }
    else .ok { id := id, name := rawName, arguments := rawArgs }

/-- The `catch` fallback of the normalizer (`messageHandler.js` line 283). -/
def fallbackToolCall (genId : String) (tc : ToolDesc) : NormTool :=
  { id := jsOr tc.id genId, name := jsOr tc.name "unknown", arguments := JsVal.vobj [] }

/-- Total normalization of one descriptor: the `try`/`catch` of the source. -/
def normalizeToolCall (jsonParse : String → Option JsVal) (genId : String)
    (tc : ToolDesc) : NormTool :=
  match normalizeCore jsonParse genId tc with
  | .ok r => r
  | .error _ => fallbackToolCall genId tc

/-! ## Wire frames and handler state (`messageHandler.js`) -/

/-- The `human_input_request` object nested in `structured_output` frames. -/
structure HumanInputRequest where
  input_type : String := ""
  inputType : String := ""

/-- The `response_content` object of a frame.  The source reads
`response_content?.content?.human_input_request`; the intermediate
`content` level carries nothing else and is flattened here. -/
structure ResponseContent where
  human_input_request : Option HumanInputRequest := none
  message : String := ""

/-- One decoded server frame.  String fields use `""` for absent. -/
structure WsData where
  type : String := ""
  content : String := ""
  chunk : String := ""
  text : String := ""
  message : String := ""
  session_id : String := ""
  conversation_id : String := ""
  conversationId : String := ""
  error : String := ""
  response_content : Option ResponseContent := none
  function_content : Option (List ToolDesc) := none

/-- A message in the rendered transcript (hook state `messages`). -/
structure Msg where
  id : String
  role : String
  type : String
  content : String
  timestamp : Nat
  sessionId : Option String := none
  animateTyping : Option Bool := none
deriving DecidableEq

/-- The state touched by the message handler: React state (`messages`,
`isTyping`, `status`, `currentResponse`, `conversationId`, `error`), the
refs (`isStoppedRef`, `hasUserMessageRef`, `typingTimeoutRef` as an armed
flag, session id), the two closure variables of `createMessageHandler`,
and the batches forwarded to the tool-call callback. -/
structure HandlerState where
  lastStreamedContent : String := ""
  flushedReasoningText : String := ""
  currentResponse : String := ""
  messages : List Msg := []
  isTyping : Bool := false
  status : Option String := none
  error : Option String := none
  conversationId : Option String := none
  savedConversationId : Option String := none
  sessionId : Option String := none
  typingTimeoutArmed : Bool := false
  hasUserMessage : Bool := false
  isStopped : Bool := false
  hasToolCallback : Bool := true
  dispatched : List (List NormTool) := []

/-- The initial handler state of a fresh hook (no restored history). -/
def initHandlerState : HandlerState := {}

/-- The assistant message object built by `addAssistantMsg`
(`messageHandler.js` lines 71-83); `now` stands for `Date.now()`. -/
def assistantMsg (now : Nat) (idSuffix : String) (content : String)
    (animate : Bool) : Msg :=
  { id := "msg-" ++ toString now ++ idSuffix, role := "assistant", type := "assistant",
    content := content, timestamp := now, animateTyping := some animate }

/-- The user message object built by `sendMessage` in the hook. -/
def userMsg (now : Nat) (content : String) (sid : Option String) : Msg :=
  { id := "msg-" ++ toString now, role := "user", type := "user",
    content := content, timestamp := now, sessionId := sid }

/-- The `handleMessage` function returned by `createMessageHandler`
(`messageHandler.js` lines 126-391), as one step on `HandlerState`.
`jsonParse` models the browser `JSON.parse` used on tool-call arguments;
`now` models `Date.now()`.  Timer creation and cancellation surface as the
`typingTimeoutArmed` flag. -/
def handleMessage (jsonParse : String → Option JsVal) (now : Nat)
    (data : WsData) (s : HandlerState) : HandlerState :=
  -- If user has stopped generation, ignore all messages except session_established
  if s.isStopped ∧ data.type ≠ "session_established" then s
  else if data.type = "session_established" then
    if data.session_id ≠ "" then { s with sessionId := some data.session_id } else s
  else if data.type = "typing_start" then
    { s with isTyping := true, status := getStatusForEventType "typing_start",
             typingTimeoutArmed := false }
  else if data.type = "typing_stop" then
    { s with isTyping := false, status := none, currentResponse := "",
             typingTimeoutArmed := false }
  else if data.type = "streaming_chunk" ∨ data.type = "chunk" then
    if s.isStopped then s
    else
      let content := jsOr (jsOr (jsOr data.content data.chunk) data.text) data.message
      if content ≠ "" then
        let newContent := s.currentResponse ++ content
        if !s.hasUserMessage ∧ strLength newContent < 100 ∧
            isInitialGreeting newContent then
          { s with lastStreamedContent := "", currentResponse := "" }
        else
          { s with lastStreamedContent := newContent, currentResponse := newContent,
                   isTyping := true, typingTimeoutArmed := true }
      else s
  else if data.type = "structured_output" then
    let humanInputRequest := data.response_content.bind ResponseContent.human_input_request
    let isApproval :=
      match humanInputRequest with
      | some h => decide (strToUpper (jsOr h.input_type h.inputType) = "APPROVAL_REQUEST")
      | none => false
    if isApproval then
      if jsOr data.conversation_id data.conversationId ≠ "" then
        let newConversationId := jsOr data.conversation_id data.conversationId
        { s with conversationId := some newConversationId,
                 savedConversationId := some newConversationId }
      else s
    else
      let structuredMessage :=
        jsOr data.message ((data.response_content.map ResponseContent.message).getD "")
      match filterMessage structuredMessage s.hasUserMessage with
      | some filtered =>
        -- finalize any current streaming response first, then append filtered
        let s1 :=
          if s.currentResponse ≠ "" then
            { s with messages :=
                s.messages ++ [assistantMsg now "-streaming" s.currentResponse true] }
          else s
        let s2 := { s1 with messages := s1.messages ++ [assistantMsg now "" filtered true] }
        { s2 with isTyping := false, status := none, currentResponse := "",
                  typingTimeoutArmed := false }
      | none => s
  else if data.type = "tool_call" then
    let reasoningText := jsTrim s.lastStreamedContent
    let s1 := { s with status := getStatusForEventType "tool_call",
                       lastStreamedContent := "",
                       flushedReasoningText := reasoningText,
                       currentResponse := "" }
    let s2 :=
      if reasoningText ≠ "" then
        { s1 with messages :=
            s1.messages ++ [assistantMsg now "-reasoning" reasoningText false] }
      else s1
    let s3 := { s2 with isTyping := true, typingTimeoutArmed := false }
    match data.function_content with
    | some toolCalls =>
      if s3.hasToolCallback ∧ 0 < toolCalls.length then
        { s3 with dispatched := s3.dispatched ++
            [toolCalls.map (normalizeToolCall jsonParse ("tool-" ++ toString now))] }
      else s3
    | none => s3
  else if data.type = "tool_result" then
    let s1 := { s with status := getStatusForEventType "tool_result" }
    if jsOr data.conversation_id data.conversationId ≠ "" then
      let newConversationId := jsOr data.conversation_id data.conversationId
      { s1 with conversationId := some newConversationId,
                savedConversationId := some newConversationId }
    else s1
  else if data.type = "message" ∨ data.type = "complete" then
    let buffered := jsTrim s.lastStreamedContent
    let s0 := { s with lastStreamedContent := "", currentResponse := "" }
    let skip :=
      buffered = "No content provided" ∨ buffered = "sales_requested" ∨
      strToLower buffered = "sales_requested" ∨
      (!s.hasUserMessage ∧ strLength buffered < 150 ∧ isInitialGreeting buffered)
    if buffered ≠ "" ∧ ¬ skip then
      let s1 := { s0 with messages := s0.messages ++ [assistantMsg now "" buffered true],
                          flushedReasoningText := "" }
      { s1 with isTyping := false, status := none, currentResponse := "",
                typingTimeoutArmed := false }
    else
      let payloadMessage :=
        jsOr data.message ((data.response_content.map ResponseContent.message).getD "")
      let filtered :=
        match filterMessage payloadMessage s.hasUserMessage with
        | some f =>
          if s.flushedReasoningText ≠ "" ∧ strStartsWith f s.flushedReasoningText then
            let stripped := jsTrim (strDrop f (strLength s.flushedReasoningText))
            if stripped ≠ "" then some stripped else none
          else some f
        | none => none
      match filtered with
      | some f =>
        let s1 := { s0 with messages := s0.messages ++ [assistantMsg now "" f true],
                            flushedReasoningText := "" }
        { s1 with isTyping := false, status := none, currentResponse := "",
                  typingTimeoutArmed := false }
      | none => { s0 with flushedReasoningText := "" }
  else if data.type = "handoff_accept" then
    { s with status := getStatusForEventType "handoff_accept" }
  else if data.type = "handoff_request" then
    let s1 := { s with status := getStatusForEventType "handoff_request" }
    let messageContent :=
      jsOr data.message ((data.response_content.map ResponseContent.message).getD "")
    match filterMessage messageContent s.hasUserMessage with
    | none => { s1 with currentResponse := "" }
    | some f =>
      let s2 := { s1 with messages := s1.messages ++ [assistantMsg now "" f true] }
      { s2 with isTyping := false, status := none, currentResponse := "",
                typingTimeoutArmed := false }
  else if data.type = "error" then
    { s with error := some (jsOr (jsOr data.message data.error) "An error occurred"),
             isTyping := false, status := none, currentResponse := "" }
  else if jsOr data.message ((data.response_content.map ResponseContent.message).getD "")
      ≠ "" then
    let messageContent :=
      jsOr data.message ((data.response_content.map ResponseContent.message).getD "")
    match filterMessage messageContent s.hasUserMessage with
    | none => { s with currentResponse := "" }
    | some f =>
      let s1 := { s with messages := s.messages ++ [assistantMsg now "" f true] }
      { s1 with isTyping := false, status := none, currentResponse := "",
                typingTimeoutArmed := false }
  else s

/-- A `streaming_chunk` frame carrying `content`. -/
def chunkFrame (c : String) : WsData :=
  { type := "streaming_chunk", content := c }

/-- A terminal frame (`type` is `"message"` or `"complete"`) with a
`message` field. -/
def terminalFrame (t m : String) : WsData :=
  { type := t, message := m }

/-- A `tool_call` frame carrying a `function_content` array. -/
def toolCallFrame (toolCalls : List ToolDesc) : WsData :=
  { type := "tool_call", function_content := some toolCalls }

/-- Feed a list of chunk payloads to the handler, one `streaming_chunk`
frame each. -/
def processChunks (jsonParse : String → Option JsVal) (now : Nat)
    (cs : List String) (s : HandlerState) : HandlerState :=
  cs.foldl (fun st c => handleMessage jsonParse now (chunkFrame c) st) s

/-- Left-fold concatenation of the chunk payloads of a turn. -/
def concatChunks (cs : List String) : String :=
  cs.foldl (fun a c => a ++ c) ""

/-! ## Hook-level events (`useNfdAgentsWebSocket.js`)

`sendMessage` (open-socket path, lines 349-442) and `stopRequest`
(lines 546-555) as steps on the same state.  `sendMessage` is modelled in
the situation relevant to the claims: socket open, no explicit `convId`
argument.  Note that neither function touches the closure variable
`lastStreamedContent` of `createMessageHandler` - they cannot, it lives in
the handler closure. -/

/-- The `sendMessage` step (open socket, no `convId`). -/
def sendMessageStep (now : Nat) (text : String) (s : HandlerState) : HandlerState :=
  { s with isStopped := false,
           hasUserMessage := true,
           messages := s.messages ++ [userMsg now text s.sessionId],
           currentResponse := "",
           isTyping := true,
           typingTimeoutArmed := true }

/-- The `stopRequest` step. -/
def stopRequestStep (s : HandlerState) : HandlerState :=
  { s with isStopped := true,
           isTyping := false,
           status := none,
           currentResponse := "",
           typingTimeoutArmed := false }

/-- An externally observable event of a chat session: an incoming frame,
a user stop, or a user send. -/
inductive ChatEvent where
  | frame (d : WsData)
  | stop
  | send (text : String)

/-- One step of the chat session on an open socket. -/
def chatStep (jsonParse : String → Option JsVal) (now : Nat)
    (s : HandlerState) : ChatEvent → HandlerState
  | .frame d => handleMessage jsonParse now d s
  | .stop => stopRequestStep s
  | .send text => sendMessageStep now text s

/-- Run a sequence of chat events from a state. -/
def runChat (jsonParse : String → Option JsVal) (now : Nat)
    (s : HandlerState) (events : List ChatEvent) : HandlerState :=
  events.foldl (chatStep jsonParse now) s

/-! ## Connection manager: reconnect policy (`useNfdAgentsWebSocket.js`,
`ws.onclose`, lines 247-275)

The modelled scenario is the one the claims quantify over: a run of
consecutive socket closes with no intervening successful open, each close
(after the first) produced by the reconnect attempt that the previous
close scheduled.  `pendingReconnectDelay` is the delay of the timer
scheduled by the latest close (`none` = that close scheduled none; any
earlier timer has already fired to produce this close). -/

/-- Connection-manager state relevant to the reconnect policy. -/
structure ConnState where
  reconnectAttempts : Nat := 0
  retryAttempt : Nat := 0
  connectionState : String := "connected"
  isConnected : Bool := true
  isTyping : Bool := false
  status : Option String := none
  pendingReconnectDelay : Option Nat := none
  connectionFailedFlag : Bool := false
deriving DecidableEq

/-- Connection state after a successful open, before any close. -/
def initConnState : ConnState := {}

/-- The `ws.onclose` handler as a step on `ConnState`; `code` is the
close code of the event. -/
def wsOnClose (code : Nat) (s : ConnState) : ConnState :=
  let s0 := { s with isConnected := false, isTyping := false, status := none }
  if code ≠ 1000 ∧ s0.reconnectAttempts < MAX_RECONNECT_ATTEMPTS then
    { s0 with reconnectAttempts := s0.reconnectAttempts + 1,
              retryAttempt := s0.reconnectAttempts + 1,
              connectionState := "reconnecting",
              pendingReconnectDelay :=
                some (RECONNECT_DELAY * 2 ^ (s0.reconnectAttempts + 1 - 1)) }
  else if MAX_RECONNECT_ATTEMPTS ≤ s0.reconnectAttempts then
    { s0 with connectionState := "failed", pendingReconnectDelay := none,
              connectionFailedFlag := true }
  else
    { s0 with connectionState := "disconnected", pendingReconnectDelay := none }

/-- State after `n` consecutive abnormal closes (code 1006) from a fresh
connection. -/
def abnormalCloses : Nat → ConnState
  | 0 => initConnState
  | n + 1 => wsOnClose 1006 (abnormalCloses n)

/-! ## Persistent store (`storageUtils.js`, `storageKeys.js`,
`archiveConversation.js`)

`localStorage` is modelled as `Store : String → Option String` for the
key-migration routine, which never inspects values.  For the history
key, whose value is a JSON-encoded message array, the stored value is
modelled structurally as a `StoreVal` (`JSON.stringify` of a message list
is `StoreVal.msgs`; any other stored string is `StoreVal.raw`, on which
`JSON.parse` either throws or yields a non-array - both collapse to a
failed decode, and both lead the source to the same result). -/

/-- A message as persisted in the history key.  `timestamp` is the ISO
string a `Date` serializes to (`none` = field absent); `animateTyping`
`none` = field absent. -/
structure StoredMsg where
  role : String := ""
  type : String := ""
  content : String := ""
  timestamp : Option String := none
  animateTyping : Option Bool := none
deriving DecidableEq

/-- A value held by a storage key. -/
inductive StoreVal where
  | raw (s : String)
  | msgs (l : List StoredMsg)
deriving DecidableEq

/-- JS truthiness of a stored value (`JSON.stringify` of an array is
never the empty string). -/
def storeValTruthy : StoreVal → Bool
  | .raw s => decide (s ≠ "")
  | .msgs _ => true

/-- `JSON.parse` of a stored history value, as used by `restoreChat`:
`none` when the parse throws or the result is not an array. -/
def parseStoredMessages : StoreVal → Option (List StoredMsg)
  | .msgs l => some l
  | .raw _ => none

/-- `hasMeaningfulUserMessage` from `storageUtils.js`: at least one user
message with non-empty trimmed content. -/
def hasMeaningfulUserMessage (msgs : List StoredMsg) : Bool :=
  msgs.any fun m =>
    (m.role == "user" || m.type == "user") && m.content != "" && jsTrim m.content != ""

/-- The per-message normalization `restoreChat` applies to restored
messages: a fresh `Date` for a missing timestamp, `animateTyping` forced
to `false`.  `now` is the ISO time of the restore. -/
def restoreMsg (now : String) (m : StoredMsg) : StoredMsg :=
  { m with
    timestamp := some (match m.timestamp with
      | some t => if t ≠ "" then t else now
      | none => now),
    animateTyping := some false }

/-- The record returned by `restoreChat`. -/
structure RestoreResult where
  messages : List StoredMsg
  conversationId : Option String
  sessionId : Option String
deriving DecidableEq

/-- `restoreChat` from `storageUtils.js`.  The three `localStorage` reads
are passed in as the values found at the history, conversation-id and
session-id keys (`none` = key absent). -/
def restoreChat (now : String) (storedMessages : Option StoreVal)
    (storedConversationId storedSessionId : Option String) : RestoreResult :=
  match storedMessages with
  | some v =>
    if storeValTruthy v then
      match parseStoredMessages v with
      | some parsedMessages =>
        if 0 < parsedMessages.length then
          { messages := parsedMessages.map (restoreMsg now),
            conversationId := jsOrNullStr storedConversationId,
            sessionId := jsOrNullStr storedSessionId }
        else { messages := [], conversationId := none, sessionId := none }
      | none => { messages := [], conversationId := none, sessionId := none }
    else { messages := [], conversationId := none, sessionId := none }
  | none => { messages := [], conversationId := none, sessionId := none }

/-- `persistMessages` from `storageUtils.js`, as the new value of the
history key: `setItem` with the serialized list when meaningful,
`removeItem` (`none`) otherwise. -/
def persistMessages (messages : List StoredMsg) : Option StoreVal :=
  if hasMeaningfulUserMessage messages then some (StoreVal.msgs messages) else none

/-! ### Key migration (`storageKeys.js`, lines 43-65) -/

/-- A raw string-keyed store (`localStorage`). -/
def Store : Type := String → Option String

/-- JS truthiness of a `getItem` result. -/
def truthyOpt : Option String → Bool
  | some s => decide (s ≠ "")
  | none => false

/-- `localStorage.setItem`. -/
def setItem (st : Store) (key value : String) : Store :=
  fun k => if k = key then some value else st k

/-- `localStorage.removeItem`. -/
def removeItem (st : Store) (key : String) : Store :=
  fun k => if k = key then none else st k

/-- The four key suffixes the migration copies. -/
def migrationSuffixes : List String :=
  ["history", "conversation-id", "session-id", "archive"]

/-- A storage key from a scope-and-namespace key stem and a suffix. -/
def migKey (stem suffix : String) : String :=
  stem ++ "-" ++ suffix

/-- The old key stem: the site id is omitted when falsy. -/
def oldKeyStem (oldSiteId namespace_ : String) : String :=
  if oldSiteId ≠ "" then "nfd-ai-chat-" ++ oldSiteId ++ "-" ++ namespace_
  else "nfd-ai-chat-" ++ namespace_

/-- The new key stem. -/
def newKeyStem (newSiteId namespace_ : String) : String :=
  "nfd-ai-chat-" ++ newSiteId ++ "-" ++ namespace_

/-- The body of the migration loop for one suffix: copy-if-absent from
the old key to the new key, then remove the old key. -/
def migrateOneKey (oldStem newStem suffix : String) (st : Store) : Store :=
  let oldKey := migKey oldStem suffix
  let newKey := migKey newStem suffix
  let oldData := st oldKey
  let st1 :=
    if truthyOpt oldData ∧ ¬ truthyOpt (st newKey) then
      setItem st newKey (oldData.getD "")
    else st
  if truthyOpt oldData then removeItem st1 oldKey else st1

/-- `migrateStorageKeys` from `storageKeys.js`. -/
def migrateStorageKeys (oldSiteId newSiteId namespace_ : String) (st : Store) : Store :=
  let oldStem := oldKeyStem oldSiteId namespace_
  let newStem := newKeyStem newSiteId namespace_
  migrationSuffixes.foldl (fun s suffix => migrateOneKey oldStem newStem suffix s) st

/-! ### Conversation archive (`archiveConversation.js`) -/

/-- One archive entry.  `archivedAt` is the ISO timestamp of archiving;
message timestamps are already ISO strings in `StoredMsg`, so the
`toISOString` map of the source is the identity here. -/
structure ArchiveEntry where
  sessionId : Option String
  conversationId : Option String
  messages : List StoredMsg
  archivedAt : String
deriving DecidableEq

/-- The entry `archiveConversation` builds for the current conversation. -/
def mkArchiveEntry (messages : List StoredMsg) (sessionId conversationId : Option String)
    (archivedAt : String) : ArchiveEntry :=
  { sessionId := sessionId, conversationId := conversationId,
    messages := messages, archivedAt := archivedAt }

/-- `archiveConversation` from `archiveConversation.js`, as a function of
the archive list currently stored under the archive key.  `maxHistoryItems`
is `options.maxHistoryItems ?? 3`. -/
def archiveConversation (messages : List StoredMsg)
    (sessionId conversationId : Option String) (maxHistoryItems : Nat)
    (archivedAt : String) (archive : List ArchiveEntry) : List ArchiveEntry :=
  if messages.length = 0 then archive
  else if ¬ hasMeaningfulUserMessage messages then archive
  else if sessionId = none ∧ conversationId = none then archive
  else
    let newEntry := mkArchiveEntry messages sessionId conversationId archivedAt
    let filtered :=
      match conversationId with
      | some cid => archive.filter fun entry => entry.conversationId ≠ some cid
      | none => archive.filter fun entry => entry.sessionId ≠ sessionId
    (newEntry :: filtered).take maxHistoryItems

/-! # Theorems for the specification claims -/

/-- C8: the greeting filter suppresses the exact string
"Hello! How can I assist you today?" when no user message exists yet (the
string is 34 characters, far below the 150-character terminal threshold),
and once `hasUserMessage` is true the identical string is not suppressed:
`filterMessage` returns the trimmed string instead of null. -/
theorem greeting_filter_pre_and_post_user :
    filterMessage "Hello! How can I assist you today?" false = none ∧
    filterMessage "Hello! How can I assist you today?" true
      = some "Hello! How can I assist you today?" := by
  constructor <;> decide

/-- C3 counterexample: after exactly `MAX_RECONNECT_ATTEMPTS = 5`
consecutive abnormal closes the connection state is still "reconnecting",
not "failed", and a fifth reconnect timer (16000 ms) has been scheduled -
contradicting the claim that five closes reach "failed" with no timer.
The "failed" transition needs one more close: the one produced by the
fifth (and last) reconnect attempt. -/
theorem reconnect_five_closes_still_reconnecting :
    (abnormalCloses MAX_RECONNECT_ATTEMPTS).connectionState = "reconnecting" ∧
    (abnormalCloses MAX_RECONNECT_ATTEMPTS).pendingReconnectDelay = some 16000 := by
  decide

/-- C3 (amended): for every run of consecutive abnormal closes with no
intervening successful open, after `MAX_RECONNECT_ATTEMPTS + 1` closes
(the initial close plus the five failed reconnect attempts) - and from
then on - the connection state is "failed" and no further automatic
reconnect timer is scheduled. -/
theorem reconnect_attempts_bounded (n : Nat)
    (h : MAX_RECONNECT_ATTEMPTS + 1 ≤ n) :
    (abnormalCloses n).connectionState = "failed" ∧
    (abnormalCloses n).pendingReconnectDelay = none := by
  have hfix : ∀ m, abnormalCloses (6 + m) = abnormalCloses 6 := by
    intro m
    induction m with
    | zero => rfl
    | succ k ih =>
      have hsum : 6 + (k + 1) = (6 + k) + 1 := by omega
      rw [hsum]
      show wsOnClose 1006 (abnormalCloses (6 + k)) = abnormalCloses 6
      rw [ih]
      decide
  have h6 : 6 ≤ n := h
  obtain ⟨m, rfl⟩ := Nat.exists_eq_add_of_le h6
  rw [hfix m]
  constructor <;> decide

/-- C3 amended-claim witness at `n = 7`. -/
theorem reconnect_attempts_bounded_witness :
    (abnormalCloses 7).connectionState = "failed" ∧
    (abnormalCloses 7).pendingReconnectDelay = none :=
  reconnect_attempts_bounded 7 (by decide)

/-- C4: for every `n` with `1 ≤ n ≤ MAX_RECONNECT_ATTEMPTS`, the delay
scheduled before the n-th automatic reconnect attempt equals
`RECONNECT_DELAY * 2 ^ (n - 1)` (base 1000 ms), and the sequence of
backoff delays is monotonically non-decreasing in `n`. -/
theorem backoff_delay_exponential (n : Nat) (h1 : 1 ≤ n)
    (h2 : n ≤ MAX_RECONNECT_ATTEMPTS) :
    (abnormalCloses n).pendingReconnectDelay
      = some (RECONNECT_DELAY * 2 ^ (n - 1)) ∧
    ∀ m, 1 ≤ m → m ≤ n →
      RECONNECT_DELAY * 2 ^ (m - 1) ≤ RECONNECT_DELAY * 2 ^ (n - 1) := by
  have h2n : n ≤ 5 := h2
  constructor
  · interval_cases n <;> decide
  · intro m hm1 hm2
    exact Nat.mul_le_mul_left _ (Nat.pow_le_pow_right (by decide) (by omega))

/-- C4 witness at `n = 3`: the third backoff delay is 4000 ms. -/
theorem backoff_delay_exponential_witness :
    (abnormalCloses 3).pendingReconnectDelay
      = some (RECONNECT_DELAY * 2 ^ (3 - 1)) ∧
    ∀ m, 1 ≤ m → m ≤ 3 →
      RECONNECT_DELAY * 2 ^ (m - 1) ≤ RECONNECT_DELAY * 2 ^ (3 - 1) :=
  backoff_delay_exponential 3 (by decide) (by decide)

/-- C5 counterexample: the round trip is not exact.  A meaningful list
whose user message has `animateTyping = true` is persisted verbatim, but
`restoreChat` forces `animateTyping` to `false` on every restored message,
so the restored list differs from the persisted one. -/
theorem persist_restore_not_exact_roundtrip :
    (restoreChat "2024-06-01T00:00:00.000Z"
        (persistMessages
          [{ role := "user", type := "user", content := "hi",
             timestamp := some "2024-01-01T00:00:00.000Z",
             animateTyping := some true }]) none none).messages
      ≠ [{ role := "user", type := "user", content := "hi",
           timestamp := some "2024-01-01T00:00:00.000Z",
           animateTyping := some true }] ∧
    (restoreChat "2024-06-01T00:00:00.000Z"
        (persistMessages
          [{ role := "user", type := "user", content := "hi",
             timestamp := some "2024-01-01T00:00:00.000Z",
             animateTyping := some true }]) none none).messages
      = [{ role := "user", type := "user", content := "hi",
           timestamp := some "2024-01-01T00:00:00.000Z",
           animateTyping := some false }] := by
  constructor <;> decide

/-- C5 (amended): when the message list contains at least one user message
with non-empty trimmed content, `persistMessages` followed by `restoreChat`
on the same key yields back exactly that message list up to the
normalization restore applies to each message (`animateTyping` set to
`false`, a missing timestamp filled with the restore time); when it
contains no such user message, `persistMessages` leaves the stored key
absent and `restoreChat` yields an empty message list. -/
theorem persist_restore_roundtrip (now : String) (msgs : List StoredMsg)
    (cv sv : Option String) :
    (hasMeaningfulUserMessage msgs = true →
      (restoreChat now (persistMessages msgs) cv sv).messages
        = msgs.map (restoreMsg now)) ∧
    (hasMeaningfulUserMessage msgs = false →
      persistMessages msgs = none ∧
      (restoreChat now (persistMessages msgs) cv sv).messages = []) := by
  constructor
  · intro hm
    have hne : msgs ≠ [] := by
      intro he
      rw [he] at hm
      simp [hasMeaningfulUserMessage] at hm
    have hpos : 0 < msgs.length := List.length_pos.mpr hne
    simp [persistMessages, hm, restoreChat, storeValTruthy, parseStoredMessages, hpos]
  · intro hm
    simp [persistMessages, hm, restoreChat]

/-- C5 amended-claim witness on a one-user-message list. -/
theorem persist_restore_roundtrip_witness :
    (restoreChat "2024-06-01T00:00:00.000Z"
        (persistMessages [{ role := "user", content := "need help with DNS" }])
        none none).messages
      = [({ role := "user", content := "need help with DNS" } : StoredMsg)].map
          (restoreMsg "2024-06-01T00:00:00.000Z") :=
  (persist_restore_roundtrip "2024-06-01T00:00:00.000Z"
    [{ role := "user", content := "need help with DNS" }] none none).1 (by decide)

/-- C9: when the stored history key is absent, or its value does not parse
as a non-empty JSON array, `restoreChat` returns
`{messages := [], conversationId := none, sessionId := none}` even if the
id keys hold non-empty values; stored ids are surfaced only together with
a non-empty restored message list; and every restored message has
`animateTyping` set to `false`. -/
theorem restore_empty_on_bad_history (now : String) (hv : Option StoreVal)
    (cv sv : Option String) :
    ((hv = none ∨ (∃ s0, hv = some (StoreVal.raw s0)) ∨ hv = some (StoreVal.msgs [])) →
      restoreChat now hv cv sv
        = { messages := [], conversationId := none, sessionId := none }) ∧
    (∀ m ∈ (restoreChat now hv cv sv).messages, m.animateTyping = some false) ∧
    (((restoreChat now hv cv sv).conversationId ≠ none ∨
        (restoreChat now hv cv sv).sessionId ≠ none) →
      (restoreChat now hv cv sv).messages ≠ []) := by
  refine ⟨?_, ?_, ?_⟩
  · rintro (rfl | ⟨s0, rfl⟩ | rfl)
    · rfl
    · by_cases h0 : s0 = "" <;>
        simp [restoreChat, storeValTruthy, parseStoredMessages, h0]
    · simp [restoreChat, storeValTruthy, parseStoredMessages]
  · intro m hmem
    rcases hv with _ | v
    · simp [restoreChat] at hmem
    · rcases v with s0 | l
      · by_cases h0 : s0 = "" <;>
          simp [restoreChat, storeValTruthy, parseStoredMessages, h0] at hmem
      · rcases l with _ | ⟨a, t⟩
        · simp [restoreChat, storeValTruthy, parseStoredMessages] at hmem
        · simp [restoreChat, storeValTruthy, parseStoredMessages] at hmem
          rcases hmem with h | ⟨m0, hm0, h⟩ <;> subst h <;> simp [restoreMsg]
  · intro hid
    rcases hv with _ | v
    · simp [restoreChat] at hid
    · rcases v with s0 | l
      · by_cases h0 : s0 = "" <;>
          simp [restoreChat, storeValTruthy, parseStoredMessages, h0] at hid
      · rcases l with _ | ⟨a, t⟩
        · simp [restoreChat, storeValTruthy, parseStoredMessages] at hid
        · simp [restoreChat, storeValTruthy, parseStoredMessages]

/-- C9 witness: parse failure with both id keys non-empty yields the
empty result. -/
theorem restore_empty_on_bad_history_witness :
    restoreChat "2024-06-01T00:00:00.000Z" (some (StoreVal.raw "not json"))
        (some "conv-1") (some "sess-1")
      = { messages := [], conversationId := none, sessionId := none } :=
  (restore_empty_on_bad_history "2024-06-01T00:00:00.000Z"
      (some (StoreVal.raw "not json")) (some "conv-1") (some "sess-1")).1
    (Or.inr (Or.inl ⟨"not json", rfl⟩))

/-- A truthy `getItem` result is `some` of its own `getD`. -/
theorem truthy_getD {o : Option String} (h : truthyOpt o = true) :
    some (o.getD "") = o := by
  cases o <;> simp_all [truthyOpt]

/-- Keys other than the two of a migration step are untouched by it. -/
theorem migrateOneKey_other (oldStem newStem suffix : String) (st : Store)
    (k : String) (h1 : k ≠ migKey oldStem suffix) (h2 : k ≠ migKey newStem suffix) :
    migrateOneKey oldStem newStem suffix st k = st k := by
  unfold migrateOneKey
  split_ifs <;> simp [setItem, removeItem, h1, h2]

/-- A migration step with truthy old data and no truthy new data moves the
old value to the new key and removes the old key. -/
theorem migrateOneKey_moves (oldStem newStem suffix : String) (st : Store)
    (hkne : migKey oldStem suffix ≠ migKey newStem suffix)
    (told : truthyOpt (st (migKey oldStem suffix)) = true)
    (tnew : truthyOpt (st (migKey newStem suffix)) = false) :
    migrateOneKey oldStem newStem suffix st (migKey newStem suffix)
      = st (migKey oldStem suffix) ∧
    migrateOneKey oldStem newStem suffix st (migKey oldStem suffix) = none := by
  unfold migrateOneKey
  simp only [told, tnew]
  simp [setItem, removeItem, hkne, Ne.symm hkne, truthy_getD told]

/-- A migration step with truthy new data keeps the new value and (when
the old data is truthy) removes the old key. -/
theorem migrateOneKey_keeps (oldStem newStem suffix : String) (st : Store)
    (hkne : migKey oldStem suffix ≠ migKey newStem suffix)
    (tnew : truthyOpt (st (migKey newStem suffix)) = true) :
    migrateOneKey oldStem newStem suffix st (migKey newStem suffix)
      = st (migKey newStem suffix) ∧
    (truthyOpt (st (migKey oldStem suffix)) = true →
      migrateOneKey oldStem newStem suffix st (migKey oldStem suffix) = none) := by
  unfold migrateOneKey
  constructor
  · split_ifs <;> simp_all [setItem, removeItem, hkne, Ne.symm hkne]
  · intro told
    split_ifs <;> simp_all [setItem, removeItem, hkne, Ne.symm hkne]

/-- A fold of migration steps leaves every key outside the touched key
set unchanged. -/
theorem foldl_migrate_other (oldStem newStem : String) (sufs : List String)
    (st : Store) (k : String)
    (h : ∀ s ∈ sufs, k ≠ migKey oldStem s ∧ k ≠ migKey newStem s) :
    (sufs.foldl (fun s0 suffix => migrateOneKey oldStem newStem suffix s0) st) k
      = st k := by
  induction sufs generalizing st with
  | nil => rfl
  | cons a t ih =>
    simp only [List.foldl_cons]
    rw [ih _ fun s hs => h s (List.mem_cons_of_mem a hs),
        migrateOneKey_other _ _ _ _ _ (h a (List.mem_cons_self a t)).1
          (h a (List.mem_cons_self a t)).2]

/-- C7: for every storage key migrated by `migrateStorageKeys` from the
old scope to the new scope (under the distinctness of the generated keys,
which holds for concrete site ids and namespaces): if the key had truthy
data under the old scope and none under the new, after migration the new
key holds the old data and the old key is removed; if the new key already
had truthy data, it is never overwritten, and the old key (when it had
data) is removed, discarding its data. -/
theorem migrate_copy_if_absent (oldSiteId newSiteId namespace_ suffix : String)
    (st : Store) (hs : suffix ∈ migrationSuffixes)
    (hcross : ∀ s1 ∈ migrationSuffixes, ∀ s2 ∈ migrationSuffixes,
      migKey (oldKeyStem oldSiteId namespace_) s1
        ≠ migKey (newKeyStem newSiteId namespace_) s2)
    (holdK : ∀ s1 ∈ migrationSuffixes, ∀ s2 ∈ migrationSuffixes, s1 ≠ s2 →
      migKey (oldKeyStem oldSiteId namespace_) s1
        ≠ migKey (oldKeyStem oldSiteId namespace_) s2)
    (hnewK : ∀ s1 ∈ migrationSuffixes, ∀ s2 ∈ migrationSuffixes, s1 ≠ s2 →
      migKey (newKeyStem newSiteId namespace_) s1
        ≠ migKey (newKeyStem newSiteId namespace_) s2) :
    (truthyOpt (st (migKey (oldKeyStem oldSiteId namespace_) suffix)) = true →
      truthyOpt (st (migKey (newKeyStem newSiteId namespace_) suffix)) = false →
      migrateStorageKeys oldSiteId newSiteId namespace_ st
          (migKey (newKeyStem newSiteId namespace_) suffix)
        = st (migKey (oldKeyStem oldSiteId namespace_) suffix) ∧
      migrateStorageKeys oldSiteId newSiteId namespace_ st
          (migKey (oldKeyStem oldSiteId namespace_) suffix) = none) ∧
    (truthyOpt (st (migKey (newKeyStem newSiteId namespace_) suffix)) = true →
      migrateStorageKeys oldSiteId newSiteId namespace_ st
          (migKey (newKeyStem newSiteId namespace_) suffix)
        = st (migKey (newKeyStem newSiteId namespace_) suffix) ∧
      (truthyOpt (st (migKey (oldKeyStem oldSiteId namespace_) suffix)) = true →
        migrateStorageKeys oldSiteId newSiteId namespace_ st
            (migKey (oldKeyStem oldSiteId namespace_) suffix) = none)) := by
  set oS := oldKeyStem oldSiteId namespace_ with hoS
  set nS := newKeyStem newSiteId namespace_ with hnS
  obtain ⟨pre, post, hsplit⟩ := List.append_of_mem hs
  have hndup : migrationSuffixes.Nodup := by decide
  rw [hsplit] at hndup
  have hnd := List.nodup_append.1 hndup
  have hnotpre : suffix ∉ pre := fun hmem => hnd.2.2 hmem (List.mem_cons_self _ _)
  have hnotpost : suffix ∉ post := (List.nodup_cons.1 hnd.2.1).1
  have hmempre : ∀ s ∈ pre, s ∈ migrationSuffixes ∧ s ≠ suffix := by
    intro s hs0
    refine ⟨by rw [hsplit]; exact List.mem_append_left _ hs0, fun he => ?_⟩
    exact hnotpre (by rw [← he]; exact hs0)
  have hmempost : ∀ s ∈ post, s ∈ migrationSuffixes ∧ s ≠ suffix := by
    intro s hs0
    refine ⟨by rw [hsplit]; exact List.mem_append_right _ (List.mem_cons_of_mem _ hs0),
      fun he => ?_⟩
    exact hnotpost (by rw [← he]; exact hs0)
  have hsafe : ∀ (l : List String), (∀ s ∈ l, s ∈ migrationSuffixes ∧ s ≠ suffix) →
      (∀ s ∈ l, migKey oS suffix ≠ migKey oS s ∧ migKey oS suffix ≠ migKey nS s) ∧
      (∀ s ∈ l, migKey nS suffix ≠ migKey oS s ∧ migKey nS suffix ≠ migKey nS s) := by
    intro l hl
    constructor <;> intro s hs0 <;> obtain ⟨hmem, hne⟩ := hl s hs0
    · exact ⟨holdK suffix hs s hmem (fun he => hne he.symm),
        hcross suffix hs s hmem⟩
    · exact ⟨Ne.symm (hcross s hmem suffix hs),
        hnewK suffix hs s hmem (fun he => hne he.symm)⟩
  have hunfold : migrateStorageKeys oldSiteId newSiteId namespace_ st
      = post.foldl (fun s0 suf => migrateOneKey oS nS suf s0)
          (migrateOneKey oS nS suffix
            (pre.foldl (fun s0 suf => migrateOneKey oS nS suf s0) st)) := by
    simp only [migrateStorageKeys, ← hoS, ← hnS]
    rw [hsplit, List.foldl_append, List.foldl_cons]
  have hpreOld : (pre.foldl (fun s0 suf => migrateOneKey oS nS suf s0) st)
      (migKey oS suffix) = st (migKey oS suffix) :=
    foldl_migrate_other oS nS pre st _ ((hsafe pre hmempre).1)
  have hpreNew : (pre.foldl (fun s0 suf => migrateOneKey oS nS suf s0) st)
      (migKey nS suffix) = st (migKey nS suffix) :=
    foldl_migrate_other oS nS pre st _ ((hsafe pre hmempre).2)
  have hpostOld : ∀ mid, (post.foldl (fun s0 suf => migrateOneKey oS nS suf s0) mid)
      (migKey oS suffix) = mid (migKey oS suffix) :=
    fun mid => foldl_migrate_other oS nS post mid _ ((hsafe post hmempost).1)
  have hpostNew : ∀ mid, (post.foldl (fun s0 suf => migrateOneKey oS nS suf s0) mid)
      (migKey nS suffix) = mid (migKey nS suffix) :=
    fun mid => foldl_migrate_other oS nS post mid _ ((hsafe post hmempost).2)
  have hkne : migKey oS suffix ≠ migKey nS suffix := hcross suffix hs suffix hs
  constructor
  · intro told tnew
    have hm := migrateOneKey_moves oS nS suffix
      (pre.foldl (fun s0 suf => migrateOneKey oS nS suf s0) st) hkne
      (by rw [hpreOld]; exact told) (by rw [hpreNew]; exact tnew)
    constructor
    · rw [hunfold, hpostNew, hm.1, hpreOld]
    · rw [hunfold, hpostOld, hm.2]
  · intro tnew
    have hk := migrateOneKey_keeps oS nS suffix
      (pre.foldl (fun s0 suf => migrateOneKey oS nS suf s0) st) hkne
      (by rw [hpreNew]; exact tnew)
    constructor
    · rw [hunfold, hpostNew, hk.1, hpreNew]
    · intro told
      rw [hunfold, hpostOld, hk.2 (by rw [hpreOld]; exact told)]

/-- C7 witness: migrating the unscoped history key of namespace
`help_center` to site scope `site9`. -/
theorem migrate_copy_if_absent_witness :
    migrateStorageKeys "" "site9" "help_center"
        (fun k => if k = "nfd-ai-chat-help_center-history" then some "OLD" else none)
        (migKey (newKeyStem "site9" "help_center") "history")
      = (fun k => if k = "nfd-ai-chat-help_center-history" then some "OLD" else none)
          (migKey (oldKeyStem "" "help_center") "history") ∧
    migrateStorageKeys "" "site9" "help_center"
        (fun k => if k = "nfd-ai-chat-help_center-history" then some "OLD" else none)
        (migKey (oldKeyStem "" "help_center") "history") = none :=
  (migrate_copy_if_absent "" "site9" "help_center" "history"
      (fun k => if k = "nfd-ai-chat-help_center-history" then some "OLD" else none)
      (by decide) (by decide) (by decide) (by decide)).1 (by decide) (by decide)

/-- A filter by a predicate some member fails is strictly shorter. -/
theorem length_filter_lt_of_mem_not {α : Type} (l : List α) (p : α → Bool) (x : α)
    (hx : x ∈ l) (hp : p x = false) : (l.filter p).length < l.length := by
  induction l with
  | nil => cases hx
  | cons a t ih =>
    rcases List.mem_cons.1 hx with rfl | hx2
    · rw [List.filter_cons, hp]
      exact Nat.lt_succ_of_le (List.length_filter_le p t)
    · by_cases hpa : p a = true
      · rw [List.filter_cons, if_pos hpa]
        exact Nat.succ_lt_succ (ih hx2)
      · rw [List.filter_cons, if_neg hpa]
        exact Nat.lt_succ_of_lt (ih hx2)

/-- C6: `archiveConversation` of a meaningful, non-empty message list with
at least one id: the stored list length never exceeds `maxHistoryItems`;
the new entry is at the front; when an entry with the same
`conversationId` already exists, the archive does not grow (idempotence
of re-archiving); and the new entry is deduplicated - no other entry with
that `conversationId` remains (when `conversationId` is null the same
dedupe runs on `sessionId` instead, per the source). -/
theorem archive_idempotent_bounded (msgs : List StoredMsg)
    (sid cid : Option String) (maxItems : Nat) (archivedAt : String)
    (archive : List ArchiveEntry)
    (hne : msgs ≠ [])
    (hm : hasMeaningfulUserMessage msgs = true)
    (hid : ¬ (sid = none ∧ cid = none))
    (hmax : 1 ≤ maxItems) :
    (archiveConversation msgs sid cid maxItems archivedAt archive).length ≤ maxItems ∧
    (archiveConversation msgs sid cid maxItems archivedAt archive).head?
      = some (mkArchiveEntry msgs sid cid archivedAt) ∧
    (∀ c, cid = some c → (∃ e ∈ archive, e.conversationId = some c) →
      (archiveConversation msgs sid cid maxItems archivedAt archive).length
        ≤ archive.length) ∧
    (∀ c, cid = some c →
      ∀ e ∈ (archiveConversation msgs sid cid maxItems archivedAt archive).tail,
        e.conversationId ≠ some c) := by
  have hlen : ¬ msgs.length = 0 := by simpa using hne
  obtain ⟨k, rfl⟩ : ∃ k, maxItems = k + 1 := ⟨maxItems - 1, by omega⟩
  unfold archiveConversation
  rw [if_neg hlen, if_neg (by simp [hm]), if_neg hid]
  refine ⟨?_, ?_, ?_, ?_⟩
  · rw [List.length_take]
    exact Nat.min_le_left _ _
  · cases cid <;> simp [List.take_succ_cons]
  · rintro c rfl ⟨e, hmem, hcid⟩
    have hlt : ((archive.filter fun entry =>
        decide (entry.conversationId ≠ some c)).length < archive.length) := by
      refine length_filter_lt_of_mem_not archive _ e hmem ?_
      simp [hcid]
    rw [List.length_take]
    simp only []
    calc min (k + 1) ((mkArchiveEntry msgs sid (some c) archivedAt ::
          archive.filter fun entry => decide (entry.conversationId ≠ some c)).length)
        ≤ (mkArchiveEntry msgs sid (some c) archivedAt ::
          archive.filter fun entry => decide (entry.conversationId ≠ some c)).length :=
          Nat.min_le_right _ _
      _ ≤ archive.length := by simpa using hlt
  · rintro c rfl e hmem
    rw [List.take_succ_cons] at hmem
    have hmem2 := List.mem_of_mem_take hmem
    have := List.of_mem_filter hmem2
    simpa using this

/-- C6 witness: re-archiving a conversation whose `conversationId` already
has an entry does not grow the one-entry archive. -/
theorem archive_idempotent_bounded_witness :
    (archiveConversation [{ role := "user", content := "hi" }] (some "s1") (some "c1")
        3 "2024-06-02T00:00:00.000Z"
        [mkArchiveEntry [{ role := "user", content := "old words" }] (some "s0")
          (some "c1") "2024-06-01T00:00:00.000Z"]).length
      ≤ [mkArchiveEntry [{ role := "user", content := "old words" }] (some "s0")
          (some "c1") "2024-06-01T00:00:00.000Z"].length :=
  (archive_idempotent_bounded [{ role := "user", content := "hi" }] (some "s1")
      (some "c1") 3 "2024-06-02T00:00:00.000Z"
      [mkArchiveEntry [{ role := "user", content := "old words" }] (some "s0")
        (some "c1") "2024-06-01T00:00:00.000Z"]
      (by decide) (by decide) (by decide) (by decide)).2.2.1 "c1" rfl
    ⟨mkArchiveEntry [{ role := "user", content := "old words" }] (some "s0")
        (some "c1") "2024-06-01T00:00:00.000Z", by simp, rfl⟩

/-- A successful run of the normalizer core puts the descriptor id (or
the generated id) on the result. -/
theorem normalizeCore_id (jp : String → Option JsVal) (g : String) (tc : ToolDesc) :
    ∀ r, normalizeCore jp g tc = Except.ok r → r.id = jsOr tc.id g := by
  intro r
  unfold normalizeCore
  dsimp only
  repeat' split
  all_goals intro h
  all_goals
    first
      | exact Except.noConfusion h
      | (injection h with h2; subst h2; rfl)

/-- Every path of the tool-call normalizer, fallback included, puts the
descriptor id (or the generated id) on the result. -/
theorem normalizeToolCall_id (jp : String → Option JsVal) (g : String)
    (tc : ToolDesc) : (normalizeToolCall jp g tc).id = jsOr tc.id g := by
  unfold normalizeToolCall
  rcases h : normalizeCore jp g tc with e | r
  · rfl
  · exact normalizeCore_id jp g tc r h

/-- C10 counterexample: a descriptor whose `arguments` string parses to
the JSON number 5 is forwarded with `arguments = 5`, which is not an
object - refuting the claim that every normalized element has an
object-valued `arguments` field. -/
theorem tool_call_arguments_not_always_object :
    normalizeToolCall (fun sArgs => if sArgs = "5" then some (JsVal.vnum 5) else none)
        "tool-0" { id := "t1", name := "calc", arguments := some (JsVal.vstr "5") }
      = { id := "t1", name := "calc", arguments := JsVal.vnum 5 } ∧
    JsVal.isObj (normalizeToolCall
        (fun sArgs => if sArgs = "5" then some (JsVal.vnum 5) else none)
        "tool-0" { id := "t1", name := "calc",
                   arguments := some (JsVal.vstr "5") }).arguments = false :=
  ⟨rfl, rfl⟩

/-- C10 (amended): tool-call normalization is total.  On a `tool_call`
frame with a non-empty descriptor array and a consumer callback present,
the handler forwards (dispatches) the batch normalized element-wise; the
normalized list has the same length; every element carries the descriptor
id or the generated id; and a descriptor whose `arguments` string fails to
JSON-parse normalizes to the fallback
`{id, name (or "unknown"), arguments := {}}` instead of an exception
escaping the handler.  (The `arguments` of a successfully parsed
descriptor is its parsed value, which need not be an object.) -/
theorem tool_call_normalization_total (jp : String → Option JsVal) (now : Nat)
    (toolCalls : List ToolDesc) (s : HandlerState)
    (hstop : s.isStopped = false)
    (hcb : s.hasToolCallback = true)
    (hne : toolCalls ≠ []) :
    (handleMessage jp now (toolCallFrame toolCalls) s).dispatched
      = s.dispatched
        ++ [toolCalls.map (normalizeToolCall jp ("tool-" ++ toString now))] ∧
    (toolCalls.map (normalizeToolCall jp ("tool-" ++ toString now))).length
      = toolCalls.length ∧
    (∀ tc ∈ toolCalls, ∀ sArgs, tc.arguments = some (JsVal.vstr sArgs) →
      jp sArgs = none →
      normalizeToolCall jp ("tool-" ++ toString now) tc
        = fallbackToolCall ("tool-" ++ toString now) tc) ∧
    (∀ tc ∈ toolCalls,
      (normalizeToolCall jp ("tool-" ++ toString now) tc).id
        = jsOr tc.id ("tool-" ++ toString now)) := by
  refine ⟨?_, List.length_map _ _, ?_, ?_⟩
  · have hpos : 0 < toolCalls.length := List.length_pos.mpr hne
    unfold handleMessage toolCallFrame
    by_cases hr : jsTrim s.lastStreamedContent = "" <;>
      simp [hstop, hcb, hpos, hr]
  · intro tc _ sArgs harg hparse
    simp [normalizeToolCall, normalizeCore, harg, hparse]
  · intro tc _
    exact normalizeToolCall_id jp ("tool-" ++ toString now) tc

/-- C10 amended-claim witness: a two-descriptor batch with one
parse-failing arguments string. -/
theorem tool_call_normalization_total_witness :
    (handleMessage (fun _ => none) 0
        (toolCallFrame [{ id := "t1", name := "calc",
                          arguments := some (JsVal.vstr "not json") }])
        initHandlerState).dispatched
      = initHandlerState.dispatched
        ++ [[{ id := "t1", name := "calc",
               arguments := some (JsVal.vstr "not json") }].map
            (normalizeToolCall (fun _ => none) ("tool-" ++ toString 0))] :=
  (tool_call_normalization_total (fun _ => none) 0
      [{ id := "t1", name := "calc", arguments := some (JsVal.vstr "not json") }]
      initHandlerState rfl rfl (List.cons_ne_nil _ _)).1

/-- One streaming chunk on a non-stopped state: the handler appends the
payload to the synchronous buffer and mirror state (clearing both instead
when the streaming greeting filter fires pre-user-message), and never
touches the transcript. -/
theorem handleMessage_chunk (jp : String → Option JsVal) (now : Nat) (c : String)
    (s : HandlerState) (hstop : s.isStopped = false) :
    handleMessage jp now (chunkFrame c) s =
      if c = "" then s
      else if !s.hasUserMessage ∧ strLength (s.currentResponse ++ c) < 100 ∧
          isInitialGreeting (s.currentResponse ++ c) then
        { s with lastStreamedContent := "", currentResponse := "" }
      else
        { s with lastStreamedContent := s.currentResponse ++ c,
                 currentResponse := s.currentResponse ++ c,
                 isTyping := true, typingTimeoutArmed := true } := by
  unfold handleMessage chunkFrame
  by_cases hc : c = ""
  · subst hc; simp [hstop, jsOr]
  · simp [hstop, jsOr, hc]

/-- Feeding any list of chunk payloads to a non-stopped handler state with
a synchronized buffer appends no message, preserves the stop flag, the
user flag and the flushed-reasoning text, keeps the buffer synchronized,
and - when a user message exists, so the greeting filter is inert -
leaves the buffer holding the left-fold concatenation of the payloads. -/
theorem processChunks_spec (jp : String → Option JsVal) (now : Nat)
    (cs : List String) : ∀ s : HandlerState, s.isStopped = false →
    s.currentResponse = s.lastStreamedContent →
    (processChunks jp now cs s).messages = s.messages ∧
    (processChunks jp now cs s).isStopped = false ∧
    (processChunks jp now cs s).hasUserMessage = s.hasUserMessage ∧
    (processChunks jp now cs s).flushedReasoningText = s.flushedReasoningText ∧
    (processChunks jp now cs s).currentResponse
      = (processChunks jp now cs s).lastStreamedContent ∧
    (s.hasUserMessage = true →
      (processChunks jp now cs s).lastStreamedContent
        = cs.foldl (fun a c => a ++ c) s.lastStreamedContent) := by
  induction cs with
  | nil => exact fun s h1 h2 => ⟨rfl, h1, rfl, rfl, h2, fun _ => rfl⟩
  | cons c t ih =>
    intro s h1 h2
    have hstep := handleMessage_chunk jp now c s h1
    have hPC : processChunks jp now (c :: t) s
        = processChunks jp now t (handleMessage jp now (chunkFrame c) s) := rfl
    have h1a : (handleMessage jp now (chunkFrame c) s).isStopped = false := by
      rw [hstep]; split_ifs <;> simp [h1]
    have h2a : (handleMessage jp now (chunkFrame c) s).currentResponse
        = (handleMessage jp now (chunkFrame c) s).lastStreamedContent := by
      rw [hstep]; split_ifs <;> simp [h2]
    have hmsgs : (handleMessage jp now (chunkFrame c) s).messages = s.messages := by
      rw [hstep]; split_ifs <;> rfl
    have huser : (handleMessage jp now (chunkFrame c) s).hasUserMessage
        = s.hasUserMessage := by
      rw [hstep]; split_ifs <;> rfl
    have hflush : (handleMessage jp now (chunkFrame c) s).flushedReasoningText
        = s.flushedReasoningText := by
      rw [hstep]; split_ifs <;> rfl
    have hrest := ih (handleMessage jp now (chunkFrame c) s) h1a h2a
    refine ⟨?_, ?_, ?_, ?_, ?_, ?_⟩
    · rw [hPC, hrest.1, hmsgs]
    · rw [hPC]; exact hrest.2.1
    · rw [hPC, hrest.2.2.1, huser]
    · rw [hPC, hrest.2.2.2.1, hflush]
    · rw [hPC]; exact hrest.2.2.2.2.1
    · intro hu
      have hlast : (handleMessage jp now (chunkFrame c) s).lastStreamedContent
          = s.lastStreamedContent ++ c := by
        rw [hstep]
        split_ifs with hc hg
        · subst hc; rw [String.append_empty]
        · exfalso
          have : (!s.hasUserMessage) = true := hg.1
          rw [hu] at this
          exact Bool.noConfusion this
        · rw [h2]
      rw [hPC, hrest.2.2.2.2.2 (by rw [huser]; exact hu), hlast, List.foldl_cons]

/-- A terminal frame on a non-stopped state whose synchronous buffer is
non-empty and passes the content filter appends the buffer - and only the
buffer - as the assistant message; the frame payload `m` plays no part. -/
theorem handleMessage_terminal_buffered (jp : String → Option JsVal) (now : Nat)
    (t m : String) (s : HandlerState)
    (ht : t = "message" ∨ t = "complete")
    (hstop : s.isStopped = false)
    (hbuf : jsTrim s.lastStreamedContent ≠ "")
    (hskip : ¬ (jsTrim s.lastStreamedContent = "No content provided" ∨
        jsTrim s.lastStreamedContent = "sales_requested" ∨
        strToLower (jsTrim s.lastStreamedContent) = "sales_requested" ∨
        (!s.hasUserMessage ∧ strLength (jsTrim s.lastStreamedContent) < 150 ∧
          isInitialGreeting (jsTrim s.lastStreamedContent)))) :
    (handleMessage jp now (terminalFrame t m) s).messages
      = s.messages ++ [assistantMsg now "" (jsTrim s.lastStreamedContent) true] := by
  simp only [not_or] at hskip
  obtain ⟨h1, h2, h3, h4⟩ := hskip
  simp only [not_and, Bool.not_eq_true, Bool.not_eq_true'] at h4
  rcases ht with rfl | rfl <;>
    · unfold handleMessage terminalFrame
      simp [hstop, hbuf, h1, h2, h3, h4]
      rw [if_pos h4]

/-- C1 counterexample: a chunked turn accumulating exactly the sentinel
"No content provided" (with a user message already sent, so greeting
suppression is inert) leaves a non-empty buffer, yet the terminal frame
appends its own `message` payload - so the appended message is taken from
the terminal frame and differs from the chunk concatenation. -/
theorem terminal_payload_used_despite_buffer :
    (handleMessage (fun _ => none) 0 (chunkFrame "No content provided")
        { initHandlerState with hasUserMessage := true }).lastStreamedContent
      = "No content provided" ∧
    (handleMessage (fun _ => none) 0
        (terminalFrame "message" "Sure, here is the answer.")
        (handleMessage (fun _ => none) 0 (chunkFrame "No content provided")
          { initHandlerState with hasUserMessage := true })).messages
      = [assistantMsg 0 "" "Sure, here is the answer." true] := by
  constructor <;> decide

/-- C1 (amended): for every sequence of `streaming_chunk`/`chunk` frames
followed by one terminal frame (`message` or `complete`) in a turn where a
user message has been sent (so greeting suppression is inert), if the
trimmed concatenation of the chunk payloads is non-empty and passes the
content filter (it is not a suppressed sentinel), the assistant message
appended to state equals that concatenation and is never taken from the
terminal frame `message` field: the conclusion holds for every payload
`m`.  (When the buffer fails the content filter the handler falls back to
the terminal `message` field, per the counterexample.) -/
theorem streamed_buffer_wins (jp : String → Option JsVal) (now : Nat)
    (cs : List String) (t m : String) (s : HandlerState)
    (ht : t = "message" ∨ t = "complete")
    (hstop : s.isStopped = false)
    (huser : s.hasUserMessage = true)
    (hinit : s.lastStreamedContent = "")
    (hsync : s.currentResponse = "")
    (hbuf : jsTrim (concatChunks cs) ≠ "")
    (hsent1 : jsTrim (concatChunks cs) ≠ "No content provided")
    (hsent2 : jsTrim (concatChunks cs) ≠ "sales_requested")
    (hsent3 : strToLower (jsTrim (concatChunks cs)) ≠ "sales_requested") :
    (handleMessage jp now (terminalFrame t m) (processChunks jp now cs s)).messages
      = s.messages ++ [assistantMsg now "" (jsTrim (concatChunks cs)) true] := by
  have hspec := processChunks_spec jp now cs s hstop (by rw [hsync, hinit])
  have hlast : (processChunks jp now cs s).lastStreamedContent = concatChunks cs := by
    have hfold := hspec.2.2.2.2.2 huser
    rw [hinit] at hfold
    exact hfold
  have huser2 : (processChunks jp now cs s).hasUserMessage = true := by
    rw [hspec.2.2.1, huser]
  have hskip : ¬ (jsTrim (processChunks jp now cs s).lastStreamedContent
        = "No content provided" ∨
      jsTrim (processChunks jp now cs s).lastStreamedContent = "sales_requested" ∨
      strToLower (jsTrim (processChunks jp now cs s).lastStreamedContent)
        = "sales_requested" ∨
      ((!(processChunks jp now cs s).hasUserMessage) ∧
        strLength (jsTrim (processChunks jp now cs s).lastStreamedContent) < 150 ∧
        isInitialGreeting
          (jsTrim (processChunks jp now cs s).lastStreamedContent))) := by
    rw [hlast]
    rintro (h | h | h | h)
    · exact hsent1 h
    · exact hsent2 h
    · exact hsent3 h
    · have hneg := h.1
      rw [huser2] at hneg
      exact Bool.noConfusion hneg
  have happ := handleMessage_terminal_buffered jp now t m (processChunks jp now cs s)
    ht hspec.2.1 (by rw [hlast]; exact hbuf) hskip
  rw [happ, hspec.1, hlast]

/-- C1 amended-claim witness: two chunks, a terminal frame whose payload
is ignored, the appended message is the chunk concatenation. -/
theorem streamed_buffer_wins_witness :
    (handleMessage (fun _ => none) 0 (terminalFrame "message" "IGNORED PAYLOAD")
        (processChunks (fun _ => none) 0 ["Here is", " the plan."]
          { initHandlerState with hasUserMessage := true })).messages
      = ({ initHandlerState with hasUserMessage := true } : HandlerState).messages
        ++ [assistantMsg 0 "" (jsTrim (concatChunks ["Here is", " the plan."])) true] :=
  streamed_buffer_wins (fun _ => none) 0 ["Here is", " the plan."] "message"
    "IGNORED PAYLOAD" { initHandlerState with hasUserMessage := true }
    (Or.inl rfl) rfl rfl rfl rfl (by decide) (by decide) (by decide) (by decide)

/-- C2 counterexample: stream a chunk, stop mid-stream, send a new
message, then let the pre-stop turn terminal frame arrive.  The chunk
text accumulated before the stop ("PRESTOP TEXT") is appended to the
message list after the new send, because neither `stopRequest` nor
`sendMessage` clears the synchronous `lastStreamedContent` buffer. -/
theorem pre_stop_chunk_text_resurfaces :
    (runChat (fun _ => none) 0 initHandlerState
        [ChatEvent.send "first question",
         ChatEvent.frame (chunkFrame "PRESTOP TEXT"),
         ChatEvent.stop,
         ChatEvent.send "second question",
         ChatEvent.frame (terminalFrame "message" "")]).messages
      = [userMsg 0 "first question" none,
         userMsg 0 "second question" none,
         assistantMsg 0 "" "PRESTOP TEXT" true] := by
  decide

/-- C2 (amended): while the stopped flag is set, every incoming frame is
dropped: nothing is appended to the message list and the streaming buffer
is unchanged.  However, neither `stopRequest` nor `sendMessage` clears the
synchronous buffer, so chunk text accumulated before the stop survives
into the next turn and a late terminal frame of the pre-stop turn can
append it (per the counterexample). -/
theorem stopped_turn_drops_frames (jp : String → Option JsVal) (now : Nat)
    (d : WsData) (text : String) (s : HandlerState)
    (h : s.isStopped = true) :
    (chatStep jp now s (ChatEvent.frame d)).messages = s.messages ∧
    (chatStep jp now s (ChatEvent.frame d)).lastStreamedContent
      = s.lastStreamedContent ∧
    (chatStep jp now s ChatEvent.stop).lastStreamedContent
      = s.lastStreamedContent ∧
    (chatStep jp now s (ChatEvent.send text)).lastStreamedContent
      = s.lastStreamedContent := by
  refine ⟨?_, ?_, rfl, rfl⟩ <;>
    · show _
      unfold chatStep handleMessage
      by_cases hse : d.type = "session_established"
      · simp only [h, hse]
        simp
        split_ifs <;> rfl
      · simp [h, hse]

/-- C2 amended-claim witness: one late chunk against a stopped state. -/
theorem stopped_turn_drops_frames_witness :
    (chatStep (fun _ => none) 0 { initHandlerState with isStopped := true }
        (ChatEvent.frame (chunkFrame "late chunk"))).messages
      = ({ initHandlerState with isStopped := true } : HandlerState).messages ∧
    (chatStep (fun _ => none) 0 { initHandlerState with isStopped := true }
        (ChatEvent.frame (chunkFrame "late chunk"))).lastStreamedContent
      = ({ initHandlerState with isStopped := true } : HandlerState).lastStreamedContent ∧
    (chatStep (fun _ => none) 0 { initHandlerState with isStopped := true }
        ChatEvent.stop).lastStreamedContent
      = ({ initHandlerState with isStopped := true } : HandlerState).lastStreamedContent ∧
    (chatStep (fun _ => none) 0 { initHandlerState with isStopped := true }
        (ChatEvent.send "next")).lastStreamedContent
      = ({ initHandlerState with isStopped := true } : HandlerState).lastStreamedContent :=
  stopped_turn_drops_frames (fun _ => none) 0 (chunkFrame "late chunk") "next"
    { initHandlerState with isStopped := true } rfl

end AIChat
